import Mathlib

/-!
Verification development for the insightful debugging tool
(src/insightful.py).  The Insight context manager replaces the target
class's attribute protocol (the getattribute, setattr and delattr slots)
with logging wrappers for the duration of a scoped block and restores the
saved slots on exit.

The embedding below is a shallow state-passing translation of the Python
source.  Python objects are instance identifiers (Nat); instance
dictionaries and the heap are association lists; mutable session fields
(the pending-description stack, the done and guarded flags, the saved
original slots) together with the class's three installed slots, the heap
and the standard-output transcript form the state St.  Every fallible
Python operation returns an Except value paired with the state it left
behind, so that the state after an in-flight exception (pending stack
entries, a stuck recursion guard, unrestored slots) is observable.
-/

namespace Insightful

/-- Python exceptions that arise in the modelled fragment.  Messages of
the built-in TypeError and AttributeError are abstracted away; userError
carries the exception type name and its message. -/
inductive Exc where
  | typeError
  | attributeError
  | stopIteration
  | userError (ty : String) (msg : String)
deriving DecidableEq, Repr

/-- What a value's dunder self attribute can refer to: an instance of the
target class, or the class itself (a classmethod's binding). -/
inductive Ref where
  | inst (i : Nat)
  | cls
deriving DecidableEq, Repr

/-- Python values of the modelled fragment.  A boundTo value has a dunder
self attribute referring to r; func is a plain function or staticmethod
lookup result, which has no dunder self attribute. -/
inductive Value where
  | int (n : Int)
  | str (s : String)
  | none
  | func (fname : String)
  | boundTo (r : Ref) (fname : String)
deriving DecidableEq, Repr

/-- The str conversion used by the format calls in the source when a
value is interpolated into a log line.  The rendering of methods and
functions abbreviates the CPython text; no verified scenario prints one. -/
def pyStr : Value → String
  | .int n => toString n
  | .str s => s
  | .none => "None"
  | .func f => "<function " ++ f ++ ">"
  | .boundTo _ f => "<bound method " ++ f ++ ">"

/-- Test of line 90 and 91 of the source: hasattr(value, dunder self) and
value's dunder self is the accessed instance. -/
def hasSelfIs (v : Value) (i : Nat) : Bool :=
  match v with
  | .boundTo (.inst j) _ => j == i
  | _ => false

/-- Name of an exception type, as exc_type dunder name renders it. -/
def excName : Exc → String
  | .typeError => "TypeError"
  | .attributeError => "AttributeError"
  | .stopIteration => "StopIteration"
  | .userError ty _ => ty

/-- Message of an exception, as str(exc_val) renders it (abstracted to
the empty string for the built-ins whose text the claims never mention). -/
def excMsg : Exc → String
  | .userError _ msg => msg
  | _ => ""

/-- One attribute-protocol slot of the target class.  original is the
behavior present before the session was entered (the built-in protocol),
wrapper is the closure the session installs, and pyNone is the None the
saved-original fields hold before scope entry. -/
inductive Behavior where
  | original
  | wrapper
  | pyNone
deriving DecidableEq, Repr

/-- An entry of the target class's namespace, by what an attribute lookup
on an instance yields for it: a function in the class binds to the
instance, a classmethod binds to the class, a staticmethod and plain data
come back unbound. -/
inductive ClassEntry where
  | method (fname : String)
  | classMethod (fname : String)
  | staticMethod (fname : String)
  | data (v : Value)
deriving DecidableEq, Repr

/-- Body of a method of the target class, enough for the scenarios the
claims exercise: return a constant, return an attribute read off self
(the read goes through whatever slots are currently installed), or raise. -/
inductive Body where
  | ret (v : Value)
  | retSelfAttr (name : String)
  | raiseE (e : Exc)
deriving DecidableEq, Repr

/-- Instance dictionaries, keyed by instance identifier. -/
abbrev Heap := List (Nat × List (String × Value))

/-- Dictionary read: first binding of the key wins (each key is bound at
most once in well-formed states). -/
def attrGet : List (String × Value) → String → Option Value
  | [], _ => Option.none
  | (k, v) :: rest, name => if k = name then some v else attrGet rest name

/-- Dictionary write: replace the binding of the key, or append one. -/
def attrSet : List (String × Value) → String → Value → List (String × Value)
  | [], name, v => [(name, v)]
  | (k, w) :: rest, name, v =>
      if k = name then (k, v) :: rest else (k, w) :: attrSet rest name v

/-- Dictionary delete of a present key. -/
def attrDel : List (String × Value) → String → List (String × Value)
  | [], _ => []
  | (k, w) :: rest, name => if k = name then rest else (k, w) :: attrDel rest name

/-- The instance dictionary of instance i (empty when i has none yet). -/
def heapGet : Heap → Nat → List (String × Value)
  | [], _ => []
  | (j, m) :: rest, i => if j = i then m else heapGet rest i

/-- Update the instance dictionary of instance i in place. -/
def heapUpd : Heap → Nat → (List (String × Value) → List (String × Value)) → Heap
  | [], i, f => [(i, f [])]
  | (j, m) :: rest, i, f =>
      if j = i then (j, f m) :: rest else (j, m) :: heapUpd rest i f

/-- The fixed surroundings of a session: the target class's namespace,
the class's repr method as a function of the instance (its internal
attribute reads happen under the recursion guard and are modelled inside
it, including the possibility that it raises), the bodies of the class's
methods, and which writes the built-in setattr accepts (a write the
built-in rejects models a failing real attribute write). -/
structure World where
  classAttrs : List (String × ClassEntry)
  reprOf : Nat → Except Exc String
  bodyOf : String → Body
  canSet : Nat → String → Bool

/-- What a class-namespace entry yields when looked up on instance i. -/
def entryValue (e : ClassEntry) (i : Nat) : Value :=
  match e with
  | .method f => .boundTo (.inst i) f
  | .classMethod f => .boundTo .cls f
  | .staticMethod f => .func f
  | .data v => v

/-- Lookup of a class-namespace entry by name. -/
def classGet : List (String × ClassEntry) → String → Option ClassEntry
  | [], _ => Option.none
  | (k, e) :: rest, name => if k = name then some e else classGet rest name

/-- The whole mutable state: the session's configuration and mutable
fields together with the target class's three installed slots, the heap
of instance dictionaries, and the transcript of lines written to standard
output.  Field names follow the source; instanceR is the source's
instance field (None for a whole-class session), pfx its prefix string,
clsGet, clsSet and clsDel the class's currently installed slots. -/
structure St where
  instanceR : Option Nat
  function_calls : Bool
  attribute_access : Bool
  attribute_assignment : Bool
  attribute_deletion : Bool
  show_method_access : Bool
  pfx : String
  original_getattribute : Behavior
  original_setattr : Behavior
  original_delattr : Behavior
  stack : List String
  done : Bool
  guarded : Bool
  clsGet : Behavior
  clsSet : Behavior
  clsDel : Behavior
  heap : Heap
  output : List String
deriving DecidableEq, Repr

/-- Line 60 and 61 of the source: print the prefixed message to standard
output. -/
def _print (s : St) (message : String) : St :=
  { s with output := s.output ++ [s.pfx ++ message] }

/-- Lines 63 to 65 of the source: bypass interception while the recursion
guard is set, or when the session is restricted to one instance and the
operation is on a different instance (identity test on instance ids). -/
def _fast_track (s : St) (i : Nat) : Bool :=
  s.guarded || (match s.instanceR with
                | Option.none => false
                | some j => decide (j ≠ i))

/-- Lines 67 to 71 of the source: the recursion-guard context manager.
It sets the guarded flag, runs the body, and clears the flag only when
the body completes normally: the generator behind contextmanager has no
try and finally, so an exception thrown at the yield point skips the
line that clears the flag. -/
def withGuard {α : Type} (body : St → Except Exc α × St) (s : St) :
    Except Exc α × St :=
  match body { s with guarded := true } with
  | (.ok a, s2) => (.ok a, { s2 with guarded := false })
  | (.error e, s2) => (.error e, s2)

/-- The built-in attribute lookup the session saves as
original_getattribute: the instance dictionary first, then the class
namespace with descriptor binding, else AttributeError. -/
def original_getattribute_fn (w : World) (heap : Heap) (i : Nat)
    (name : String) : Except Exc Value :=
  match attrGet (heapGet heap i) name with
  | some v => .ok v
  | Option.none =>
      match classGet w.classAttrs name with
      | some e => .ok (entryValue e i)
      | Option.none => .error .attributeError

/-- The built-in attribute write the session saves as original_setattr:
store into the instance dictionary, unless the world rejects the write. -/
def original_setattr_fn (w : World) (heap : Heap) (i : Nat) (name : String)
    (v : Value) : Except Exc Heap :=
  if w.canSet i name then .ok (heapUpd heap i (fun m => attrSet m name v))
  else .error .attributeError

/-- The built-in attribute delete the session saves as original_delattr:
remove the key from the instance dictionary, AttributeError when absent. -/
def original_delattr_fn (heap : Heap) (i : Nat) (name : String) :
    Except Exc Heap :=
  if (attrGet (heapGet heap i) name).isSome then
    .ok (heapUpd heap i (fun m => attrDel m name))
  else .error .attributeError

/-- Result of an intercepted attribute read: either the looked-up value
itself, or, for a bound method of the accessed instance while
function_calls is on, the call-logging wrapper closure that
call_decorator builds around the bound method function (line 95 of the
source), remembered with the instance repr the closure captured. -/
inductive GetResult where
  | plain (v : Value)
  | wrapped (instance_repr : String) (function : Value)
deriving DecidableEq, Repr

/-- The value an expression sees in a GetResult.  A wrapper closure
stands in for its underlying bound method when treated as data. -/
def resultValue : GetResult → Value
  | .plain v => v
  | .wrapped _ f => f

/-- Lines 79 to 99 of the source: the getattribute wrapper.  Fast-track
straight to the original lookup; otherwise build the description from
the target's repr under the recursion guard and push it, perform the
real lookup (an exception from it leaves the description pending and the
guard off), then under the guard again pop, log according to the
toggles, and either return the value or hand a self-bound method to
call_decorator. -/
def getattribute_wrapper (w : World) (i : Nat) (name : String) (s : St) :
    Except Exc GetResult × St :=
  if _fast_track s i then
    ((original_getattribute_fn w s.heap i name).map .plain, s)
  else
    match withGuard (fun s0 =>
        match w.reprOf i with
        | .error e => (.error e, s0)
        | .ok instance_repr =>
            let description := instance_repr ++ "." ++ name
            (.ok (instance_repr, description),
             { s0 with stack := s0.stack ++ [description] })) s with
    | (.error e, s1) => (.error e, s1)
    | (.ok (instance_repr, description), s1) =>
        match original_getattribute_fn w s1.heap i name with
        | .error e => (.error e, s1)
        | .ok value =>
            withGuard (fun s2 =>
              let s3 := { s2 with stack := s2.stack.dropLast }
              if hasSelfIs value i then
                let s4 := if s3.show_method_access then
                    _print s3 (description ++ " -> " ++ pyStr value)
                  else s3
                if s4.function_calls then
                  (.ok (.wrapped instance_repr value), s4)
                else (.ok (.plain value), s4)
              else
                let s4 := if s3.attribute_access then
                    _print s3 (description ++ " -> " ++ pyStr value)
                  else s3
                (.ok (.plain value), s4)) s1

/-- Lines 103 to 114 of the source: the setattr wrapper.  The fast path
is the line return self.original_setattr(instance, name): it passes the
original two arguments where three are required, so in Python the call
itself raises TypeError and the value is never stored.  The intercepted
path builds and pushes the description under the guard, performs the
real write, then pops and logs under the guard. -/
def setattr_wrapper (w : World) (i : Nat) (name : String) (value : Value)
    (s : St) : Except Exc Unit × St :=
  if _fast_track s i then
    (.error .typeError, s)
  else
    match withGuard (fun s0 =>
        match w.reprOf i with
        | .error e => (.error e, s0)
        | .ok instance_repr =>
            let description := instance_repr ++ "." ++ name ++ " = " ++ pyStr value
            (.ok description, { s0 with stack := s0.stack ++ [description] })) s with
    | (.error e, s1) => (.error e, s1)
    | (.ok description, s1) =>
        match original_setattr_fn w s1.heap i name value with
        | .error e => (.error e, s1)
        | .ok h =>
            withGuard (fun s2 =>
              let s3 := { s2 with stack := s2.stack.dropLast }
              (.ok (), _print s3 description)) { s1 with heap := h }

/-- Lines 118 to 129 of the source: the delattr wrapper.  Its fast path
calls the original with the correct arguments. -/
def delattr_wrapper (w : World) (i : Nat) (name : String) (s : St) :
    Except Exc Unit × St :=
  if _fast_track s i then
    match original_delattr_fn s.heap i name with
    | .ok h => (.ok (), { s with heap := h })
    | .error e => (.error e, s)
  else
    match withGuard (fun s0 =>
        match w.reprOf i with
        | .error e => (.error e, s0)
        | .ok instance_repr =>
            let description := "del " ++ instance_repr ++ "." ++ name
            (.ok description, { s0 with stack := s0.stack ++ [description] })) s with
    | (.error e, s1) => (.error e, s1)
    | (.ok description, s1) =>
        match original_delattr_fn s1.heap i name with
        | .error e => (.error e, s1)
        | .ok h =>
            withGuard (fun s2 =>
              let s3 := { s2 with stack := s2.stack.dropLast }
              (.ok (), _print s3 description)) { s1 with heap := h }

/-- An attribute read on instance i, dispatched through the class's
currently installed getattribute slot.  A pyNone slot (possible only when
exit ran without a prior enter) is not callable. -/
def readAttr (w : World) (i : Nat) (name : String) (s : St) :
    Except Exc GetResult × St :=
  match s.clsGet with
  | .original => ((original_getattribute_fn w s.heap i name).map .plain, s)
  | .wrapper => getattribute_wrapper w i name s
  | .pyNone => (.error .typeError, s)

/-- An attribute write on instance i, dispatched through the installed
setattr slot. -/
def writeAttr (w : World) (i : Nat) (name : String) (v : Value) (s : St) :
    Except Exc Unit × St :=
  match s.clsSet with
  | .original =>
      match original_setattr_fn w s.heap i name v with
      | .ok h => (.ok (), { s with heap := h })
      | .error e => (.error e, s)
  | .wrapper => setattr_wrapper w i name v s
  | .pyNone => (.error .typeError, s)

/-- An attribute delete on instance i, dispatched through the installed
delattr slot. -/
def deleteAttr (w : World) (i : Nat) (name : String) (s : St) :
    Except Exc Unit × St :=
  match s.clsDel with
  | .original =>
      match original_delattr_fn s.heap i name with
      | .ok h => (.ok (), { s with heap := h })
      | .error e => (.error e, s)
  | .wrapper => delattr_wrapper w i name s
  | .pyNone => (.error .typeError, s)

/-- Execution of a method body with self bound to instance i.  Attribute
reads in the body go through whatever slots are installed at call time. -/
def runBody (w : World) (i : Nat) (b : Body) (s : St) : Except Exc Value × St :=
  match b with
  | .ret v => (.ok v, s)
  | .retSelfAttr name =>
      match readAttr w i name s with
      | (.ok gr, s1) => (.ok (resultValue gr), s1)
      | (.error e, s1) => (.error e, s1)
  | .raiseE e => (.error e, s)

/-- Calling a value: a method bound to an instance runs its body with
that instance as self; nothing else is callable in this model. -/
def callValue (w : World) (function : Value) (s : St) : Except Exc Value × St :=
  match function with
  | .boundTo (.inst i) f => runBody w i (w.bodyOf f) s
  | _ => (.error .typeError, s)

/-- Lines 138 to 143 of the source, for a method declared with the single
parameter self and called with no further arguments (the shape every
verified scenario uses): inspect.getcallargs binds the bound instance to
self, inspect.getargspec on the underlying function yields the name list
containing self, and inspect.formatargvalues renders the parenthesised
list with the repr of the bound instance.  Raises when the repr raises,
and TypeError when signature inspection is attempted on a non-method. -/
def buildCallDescription (w : World) (instance_repr : String)
    (function : Value) : Except Exc String :=
  match function with
  | .boundTo (.inst i) f =>
      match w.reprOf i with
      | .error e => .error e
      | .ok selfRepr =>
          .ok (instance_repr ++ "." ++ f ++ "(self=" ++ selfRepr ++ ")")
  | _ => .error .typeError

/-- Lines 132 to 150 of the source: the wrapper closure call_decorator
returns.  Once the session is done it delegates straight to the wrapped
function; otherwise it builds and pushes the call description under the
recursion guard, invokes the real function (an exception from it leaves
the description on the stack), then pops, logs the call and its return
value, and returns the value. -/
def call_decorator (w : World) (instance_repr : String) (function : Value)
    (s : St) : Except Exc Value × St :=
  if s.done then callValue w function s
  else
    match withGuard (fun s0 =>
        match buildCallDescription w instance_repr function with
        | .error e => (.error e, s0)
        | .ok description =>
            (.ok description, { s0 with stack := s0.stack ++ [description] })) s with
    | (.error e, s1) => (.error e, s1)
    | (.ok description, s1) =>
        match callValue w function s1 with
        | (.error e, s2) => (.error e, s2)
        | (.ok value, s2) =>
            withGuard (fun s3 =>
              let s4 := { s3 with stack := s3.stack.dropLast }
              (.ok value, _print s4 (description ++ " -> " ++ pyStr value))) s2

/-- Invoking the result of an attribute read: a plain value is called
directly, a wrapper closure runs call_decorator. -/
def invoke (w : World) (r : GetResult) (s : St) : Except Exc Value × St :=
  match r with
  | .plain v => callValue w v s
  | .wrapped instance_repr f => call_decorator w instance_repr f s

/-- Lines 73 to 130 of the source: scope entry saves the three installed
slots into the saved-original fields and installs the wrappers the
toggles ask for (the getattribute wrapper when function_calls or
attribute_access is on). -/
def __enter__ (s : St) : St :=
  let s1 := { s with original_getattribute := s.clsGet,
                     original_setattr := s.clsSet,
                     original_delattr := s.clsDel }
  let s2 := if s1.function_calls || s1.attribute_access then
      { s1 with clsGet := .wrapper } else s1
  let s3 := if s2.attribute_assignment then
      { s2 with clsSet := .wrapper } else s2
  if s3.attribute_deletion then { s3 with clsDel := .wrapper } else s3

/-- Lines 160 to 163 of the source: set the done flag and write the three
saved originals back into the class's slots. -/
def restoreAndFinish (s : St) : St :=
  { s with done := true,
           clsGet := s.original_getattribute,
           clsSet := s.original_setattr,
           clsDel := s.original_delattr }

/-- Lines 152 to 163 of the source: scope exit.  With no in-flight
exception, restore and finish.  With one, the code first takes next() of
an iterator over the pending stack: on an empty stack that raises
StopIteration before anything is printed or restored; otherwise it
prints the exception's type name and message and one prefixed line per
pending description in list (oldest-first) order, then restores and
finishes. -/
def __exit__ (exc : Option (String × String)) (s : St) : Except Exc Unit × St :=
  match exc with
  | Option.none => (.ok (), restoreAndFinish s)
  | some (ty, msg) =>
      match s.stack with
      | [] => (.error .stopIteration, s)
      | first :: rest =>
          let s1 := _print s (ty ++ ": " ++ msg)
          let s2 := _print s1 ("  during: " ++ first)
          let s3 := rest.foldl (fun acc frame => _print acc ("  during: " ++ frame)) s2
          (.ok (), restoreAndFinish s3)

/-- Outcome of the with statement after a block that completed with v:
exit ran with no exception; when exit itself completes the block's value
stands, and an exception raised inside exit propagates. -/
def exitOutcomeOk (v : Value) (r : Except Exc Unit × St) :
    Except Exc Value × St :=
  match r with
  | (.ok _, s3) => (.ok v, s3)
  | (.error e2, s3) => (.error e2, s3)

/-- Outcome of the with statement after a block that raised e: since
exit never returns a truthy value, e continues to propagate when exit
completes, and an exception raised inside exit replaces it. -/
def exitOutcomeErr (e : Exc) (r : Except Exc Unit × St) :
    Except Exc Value × St :=
  match r with
  | (.ok _, s3) => (.error e, s3)
  | (.error e2, s3) => (.error e2, s3)

/-- Dispatch on how the block ended: call exit with the in-flight
exception if any. -/
def afterBody : Except Exc Value × St → Except Exc Value × St
  | (.ok v, s2) => exitOutcomeOk v (__exit__ Option.none s2)
  | (.error e, s2) => exitOutcomeErr e (__exit__ (some (excName e, excMsg e)) s2)

/-- The with statement around a session: enter, run the block, and exit. -/
def withBlock (body : St → Except Exc Value × St) (s : St) :
    Except Exc Value × St :=
  afterBody (body (__enter__ s))

/-! ## Concrete scenario data

A small world in the shape of the Test class of the example script: a
method get that returns the value attribute read off self, a method test
that returns 1, a method whoops that raises, and a constant repr. -/

/-- Demonstration target class: namespace, repr, method bodies, and a
built-in setattr that accepts every write. -/
def demoWorld : World :=
  { classAttrs := [("get", .method "get"), ("test", .method "test"),
                   ("whoops", .method "whoops")],
    reprOf := fun _ => .ok "Test()",
    bodyOf := fun f =>
      if f = "get" then .retSelfAttr "value"
      else if f = "test" then .ret (.int 1)
      else .raiseE (.userError "Exception" "Oh No!"),
    canSet := fun _ _ => true }

/-- Baseline state: a whole-class session with every constructor default
(function_calls, attribute_access, attribute_assignment and
attribute_deletion on, show_method_access off, the default prefix), not
yet entered, one instance with identifier 0 whose value attribute is 0. -/
def demoSt : St :=
  { instanceR := Option.none,
    function_calls := true, attribute_access := true,
    attribute_assignment := true, attribute_deletion := true,
    show_method_access := false, pfx := "Insight: ",
    original_getattribute := .pyNone, original_setattr := .pyNone,
    original_delattr := .pyNone,
    stack := [], done := false, guarded := false,
    clsGet := .original, clsSet := .original, clsDel := .original,
    heap := [(0, [("value", .int 0)])], output := [] }

/-- A block that raises immediately, with no intercepted operation
pending. -/
def raiseBody (s : St) : Except Exc Value × St :=
  (.error (.userError "ValueError" "boom"), s)

/-- The block obj.value = 5 followed by obj.get() on instance 0. -/
def assignThenGetBody (s : St) : Except Exc Value × St :=
  match writeAttr demoWorld 0 "value" (.int 5) s with
  | (.error e, s1) => (.error e, s1)
  | (.ok _, s1) =>
      match readAttr demoWorld 0 "get" s1 with
      | (.error e, s2) => (.error e, s2)
      | (.ok gr, s2) => invoke demoWorld gr s2

/-- An entered session restricted to instance 0, with a second instance 1
of the same class carrying attributes value and useless. -/
def restrictedSt : St :=
  __enter__
    { demoSt with
        instanceR := some 0,
        heap := [(0, [("value", .int 0)]),
                 (1, [("value", .int 7), ("useless", .int 0)])] }

/-- A session state with two descriptions pending, the outermost pushed
first. -/
def pendingSt : St := { demoSt with stack := ["outer", "inner"] }

/-- The demonstration world with one attribute name whose writes the
built-in setattr rejects, modelling a failing real attribute write. -/
def failWorld : World :=
  { demoWorld with canSet := fun _ name => name != "frozen" }

/-! ## Claims -/

/-- C1: the claim reads that after every scope exit, normal or
exceptional, the three attribute behaviors are restored by reference to
the saved handlers, including when an exception is raised with no
interception pending.  The code violates this: with an in-flight
exception and an empty pending stack, exit takes next() of an empty
iterator, and the StopIteration it raises escapes before the restore
lines and the done assignment run.  This theorem evaluates the code at
that failing input: the block raises ValueError with nothing pending, the
with statement ends with StopIteration instead, all three wrappers are
still installed afterwards even though the saved originals differ, and
the done flag is still false. -/
theorem exception_with_empty_stack_skips_restore :
    withBlock raiseBody demoSt = (.error .stopIteration, __enter__ demoSt) ∧
    (__enter__ demoSt).clsGet = .wrapper ∧
    (__enter__ demoSt).clsSet = .wrapper ∧
    (__enter__ demoSt).clsDel = .wrapper ∧
    (__enter__ demoSt).original_getattribute = .original ∧
    (__enter__ demoSt).original_setattr = .original ∧
    (__enter__ demoSt).original_delattr = .original ∧
    (__enter__ demoSt).done = false :=
  ⟨rfl, rfl, rfl, rfl, rfl, rfl, rfl, rfl⟩

/-- C2: the claim reads that on a session restricted to one instance,
reads, assignments and deletions on a different instance of the class
bypass interception, invoke the original behavior and complete with
their normal effect.  Reads and deletions do; an assignment does not:
the fast path of the setattr wrapper calls the saved original with the
value argument missing, which raises TypeError, and nothing is stored.
This theorem evaluates the code on the other instance: the read bypasses
with the real value and an unchanged state, the deletion bypasses with
the real effect and no log line, and the assignment raises TypeError
leaving the state untouched. -/
theorem fast_path_assignment_on_other_instance_fails :
    readAttr demoWorld 1 "value" restrictedSt
      = (.ok (.plain (.int 7)), restrictedSt) ∧
    deleteAttr demoWorld 1 "useless" restrictedSt
      = (.ok (), { restrictedSt with
                     heap := [(0, [("value", .int 0)]),
                              (1, [("value", .int 7)])] }) ∧
    writeAttr demoWorld 1 "value" (.int 5) restrictedSt
      = (.error .typeError, restrictedSt) :=
  ⟨rfl, rfl, rfl⟩

/-- C3 counterexample: the claim reads that the default-toggled session
around obj.value = 5 followed by obj.get() emits exactly the two lines
with the bare call rendering.  Running the embedded scenario shows the
transcript is not that two-line list. -/
theorem default_scenario_not_two_lines :
    (withBlock assignThenGetBody demoSt).2.output
      ≠ ["Insight: Test().value = 5", "Insight: Test().get() -> 5"] := by
  decide

/-- C3 as amended: the scenario completes with the value 5 and emits
three log lines: the assignment line, then the line for the intercepted
read of the value attribute performed inside get, then the call line,
whose argument list carries the bound self argument rendered with its
repr (inspect.getcallargs includes the bound instance and
inspect.formatargvalues renders it). -/
theorem default_scenario_three_lines :
    (withBlock assignThenGetBody demoSt).1 = .ok (.int 5) ∧
    (withBlock assignThenGetBody demoSt).2.output
      = ["Insight: Test().value = 5", "Insight: Test().value -> 5",
         "Insight: Test().get(self=Test()) -> 5"] :=
  ⟨rfl, rfl⟩

/-- C5 counterexample: the claim reads that in the exceptional-exit
trace the innermost pending frame's line carries a prefix distinct from
the outer frames' prefix.  With two pending frames the trace gives every
frame line the same nineteen-character prefix, the session prefix
followed by the indented during marker, so the innermost frame is not
distinguished. -/
theorem trace_innermost_prefix_not_distinct :
    (__exit__ (some ("Exception", "boom")) pendingSt).2.output
      = ["Insight: Exception: boom", "Insight:   during: outer",
         "Insight:   during: inner"] ∧
    (((__exit__ (some ("Exception", "boom")) pendingSt).2.output).drop 1).map
        (fun l => String.take l 19)
      = ["Insight:   during: ", "Insight:   during: "] :=
  ⟨rfl, rfl⟩

/-! ## Helper lemmas about the exit trace -/

/-- Folding the print helper over a list of frames appends one prefixed
during line per frame to the transcript, in list order. -/
theorem foldl_during : ∀ (l : List String) (s : St),
    l.foldl (fun acc frame => _print acc ("  during: " ++ frame)) s
      = { s with output := s.output
            ++ l.map (fun d => s.pfx ++ "  during: " ++ d) }
  | [], s => by simp
  | a :: l, s => by
      rw [List.foldl_cons, foldl_during l]
      simp [_print, List.append_assoc, String.append_assoc]

/-- Exit with an in-flight exception and a nonempty pending stack prints
the exception line and one during line per pending description in list
(oldest-first) order, returns normally, and restores and finishes. -/
theorem exit_some_eq (ty msg : String) (s : St) (first : String)
    (rest : List String) (h : s.stack = first :: rest) :
    __exit__ (some (ty, msg)) s
      = (.ok (), restoreAndFinish
          { s with output := s.output ++ (s.pfx ++ ty ++ ": " ++ msg)
              :: s.stack.map (fun d => s.pfx ++ "  during: " ++ d) }) := by
  obtain ⟨iR, fc, aa, aas, ad, sma, px, og, os, od, stk, dn, gd, cg, cs, cd, hp, out⟩ := s
  change stk = first :: rest at h
  subst h
  simp only [__exit__]
  rw [foldl_during]
  simp [_print, restoreAndFinish, List.append_assoc, String.append_assoc]

/-- C4: whenever the scoped block exits with an in-flight exception and
at least one description is pending, the session prints the exception's
type name and message, then one line per still-pending description in
oldest-pushed order, each carrying the during marker after the session
prefix, and the with statement re-raises the original exception
unchanged. -/
theorem exceptional_exit_prints_pending_and_propagates
    (body : St → Except Exc Value × St) (s0 s2 : St) (e : Exc)
    (first : String) (rest : List String)
    (hbody : body (__enter__ s0) = (.error e, s2))
    (hstack : s2.stack = first :: rest) :
    withBlock body s0
      = (.error e,
         restoreAndFinish
           { s2 with output := s2.output
               ++ (s2.pfx ++ excName e ++ ": " ++ excMsg e)
               :: s2.stack.map (fun d => s2.pfx ++ "  during: " ++ d) }) := by
  simp only [withBlock]
  rw [hbody]
  simp only [afterBody]
  rw [exit_some_eq (excName e) (excMsg e) s2 first rest hstack]
  simp only [exitOutcomeErr]

/-- C4 witness: a concrete block that raises with the descriptions a and
b pending yields exactly the re-raised exception and the three trace
lines. -/
theorem exceptional_exit_witness :
    withBlock (fun _ => (.error (.userError "Exception" "Oh No!"),
        { demoSt with stack := ["a", "b"] })) demoSt
      = (.error (.userError "Exception" "Oh No!"),
         restoreAndFinish
           { { demoSt with stack := ["a", "b"] } with
               output := ({ demoSt with stack := ["a", "b"] } : St).output
                 ++ (({ demoSt with stack := ["a", "b"] } : St).pfx
                       ++ excName (.userError "Exception" "Oh No!") ++ ": "
                       ++ excMsg (.userError "Exception" "Oh No!"))
                 :: ({ demoSt with stack := ["a", "b"] } : St).stack.map
                      (fun d => ({ demoSt with stack := ["a", "b"] } : St).pfx
                        ++ "  during: " ++ d) }) :=
  exceptional_exit_prints_pending_and_propagates _ demoSt
    { demoSt with stack := ["a", "b"] } (.userError "Exception" "Oh No!")
    "a" ["b"] rfl rfl

/-- C5 as amended: every pending-frame line of the exceptional-exit
trace, the innermost included, is the session prefix followed by the
same during marker and the frame's description; no frame carries a
distinct prefix.  The frame lines are exactly the map of that one
uniform rendering over the pending stack, in oldest-first order. -/
theorem trace_frames_share_during_prefix (ty msg : String) (s : St)
    (first : String) (rest : List String) (h : s.stack = first :: rest) :
    ((__exit__ (some (ty, msg)) s).2).output
      = s.output ++ (s.pfx ++ ty ++ ": " ++ msg)
          :: s.stack.map (fun d => s.pfx ++ "  during: " ++ d) := by
  rw [exit_some_eq ty msg s first rest h]
  simp [restoreAndFinish]

/-- C5 witness: the uniform rendering evaluated on a concrete pending
stack. -/
theorem trace_frames_share_during_prefix_witness :
    ((__exit__ (some ("Exception", "boom")) pendingSt).2).output
      = pendingSt.output ++ (pendingSt.pfx ++ "Exception" ++ ": " ++ "boom")
          :: pendingSt.stack.map (fun d => pendingSt.pfx ++ "  during: " ++ d) :=
  trace_frames_share_during_prefix "Exception" "boom" pendingSt
    "outer" ["inner"] rfl

/-- C6: the finished flag is set by scope exit, and a call wrapper
closure captured inside the scope, invoked in the post-exit state (the
saved original lookup restored), delegates to the underlying function,
returns its real value read through the restored original behavior, and
leaves the state, in particular the transcript, completely unchanged. -/
theorem finished_wrapper_delegates_silently (w : World)
    (instance_repr : String) (i : Nat) (fname attr : String) (v : Value)
    (s0 : St)
    (hsaved : s0.original_getattribute = .original)
    (hbody : w.bodyOf fname = .retSelfAttr attr)
    (hval : original_getattribute_fn w s0.heap i attr = .ok v) :
    ((__exit__ Option.none s0).2).done = true ∧
    call_decorator w instance_repr (.boundTo (.inst i) fname)
        ((__exit__ Option.none s0).2)
      = (.ok v, (__exit__ Option.none s0).2) := by
  constructor
  · simp [__exit__, restoreAndFinish]
  · simp [__exit__, restoreAndFinish, call_decorator, callValue, runBody,
      readAttr, resultValue, Except.map, hsaved, hbody, hval]

/-- C6 witness: the wrapper around the method get of instance 0, invoked
after a normal exit from the entered baseline session, returns the real
attribute value 0 and changes nothing. -/
theorem finished_wrapper_delegates_silently_witness :
    ((__exit__ Option.none (__enter__ demoSt)).2).done = true ∧
    call_decorator demoWorld "Test()" (.boundTo (.inst 0) "get")
        ((__exit__ Option.none (__enter__ demoSt)).2)
      = (.ok (.int 0), (__exit__ Option.none (__enter__ demoSt)).2) :=
  finished_wrapper_delegates_silently demoWorld "Test()" 0 "get" "value"
    (.int 0) (__enter__ demoSt) rfl rfl rfl

/-- C7: an error raised by one of the target's real operations inside
the scope propagates unchanged out of the interception wrapper, with no
log line emitted for the failed operation; for a failing method call the
pushed call description remains on the pending stack (as it does for a
failing write and a failing lookup, whose descriptions the pop never
reaches either). -/
theorem target_errors_propagate (w : World) (instance_repr : String)
    (i : Nat) (fname wname rname r : String) (val : Value) (e : Exc)
    (s : St)
    (hdone : s.done = false)
    (hft : _fast_track s i = false)
    (hrepr : w.reprOf i = .ok r)
    (hbody : w.bodyOf fname = .raiseE e)
    (hset : original_setattr_fn w s.heap i wname val = .error .attributeError)
    (hget : original_getattribute_fn w s.heap i rname = .error .attributeError) :
    call_decorator w instance_repr (.boundTo (.inst i) fname) s
      = (.error e,
         { s with
             guarded := false,
             stack := s.stack
               ++ [instance_repr ++ "." ++ fname ++ "(self=" ++ r ++ ")"] }) ∧
    setattr_wrapper w i wname val s
      = (.error .attributeError,
         { s with
             guarded := false,
             stack := s.stack ++ [r ++ "." ++ wname ++ " = " ++ pyStr val] }) ∧
    getattribute_wrapper w i rname s
      = (.error .attributeError,
         { s with
             guarded := false,
             stack := s.stack ++ [r ++ "." ++ rname] }) := by
  refine ⟨?_, ?_, ?_⟩
  · simp [call_decorator, withGuard, buildCallDescription, callValue,
      runBody, hdone, hrepr, hbody]
  · simp [setattr_wrapper, withGuard, hft, hrepr, hset]
  · simp [getattribute_wrapper, withGuard, hft, hrepr, hget]

/-- C7 witness: in the entered baseline session extended with one
rejected attribute name, the raising method whoops, a write of the
rejected attribute and a lookup of a missing attribute each propagate
their exception and leave their description pending. -/
theorem target_errors_propagate_witness :
    call_decorator failWorld "Test()" (.boundTo (.inst 0) "whoops")
        (__enter__ demoSt)
      = (.error (.userError "Exception" "Oh No!"),
         { __enter__ demoSt with
             guarded := false,
             stack := (__enter__ demoSt).stack
               ++ ["Test()" ++ "." ++ "whoops" ++ "(self=" ++ "Test()" ++ ")"] }) ∧
    setattr_wrapper failWorld 0 "frozen" (.int 1) (__enter__ demoSt)
      = (.error .attributeError,
         { __enter__ demoSt with
             guarded := false,
             stack := (__enter__ demoSt).stack
               ++ ["Test()" ++ "." ++ "frozen" ++ " = " ++ pyStr (.int 1)] }) ∧
    getattribute_wrapper failWorld 0 "missing" (__enter__ demoSt)
      = (.error .attributeError,
         { __enter__ demoSt with
             guarded := false,
             stack := (__enter__ demoSt).stack
               ++ ["Test()" ++ "." ++ "missing"] }) :=
  target_errors_propagate failWorld "Test()" 0 "whoops" "frozen" "missing"
    "Test()" (.int 1) (.userError "Exception" "Oh No!") (__enter__ demoSt)
    rfl rfl rfl rfl rfl rfl

/-- C9: in an intercepted read that completes, the looked-up value is
handed to the call wrapper exactly when it has a dunder self attribute
referring to the accessed instance itself and function_calls is on; a
self-bound method with function_calls off, and every other value (plain
data, a function or staticmethod, a classmethod bound to the class), is
returned as a plain attribute, never wrapped, the latter logged as an
attribute read exactly when attribute_access is on. -/
theorem only_self_bound_methods_wrapped (w : World) (i : Nat)
    (name r : String) (v : Value) (s : St)
    (hft : _fast_track s i = false)
    (hrepr : w.reprOf i = .ok r)
    (hval : original_getattribute_fn w s.heap i name = .ok v) :
    (hasSelfIs v i = true → s.function_calls = true →
      getattribute_wrapper w i name s
        = (.ok (.wrapped r v),
           { s with
               guarded := false,
               output := s.output ++ (if s.show_method_access then
                   [s.pfx ++ r ++ "." ++ name ++ " -> " ++ pyStr v]
                 else []) })) ∧
    (hasSelfIs v i = true → s.function_calls = false →
      getattribute_wrapper w i name s
        = (.ok (.plain v),
           { s with
               guarded := false,
               output := s.output ++ (if s.show_method_access then
                   [s.pfx ++ r ++ "." ++ name ++ " -> " ++ pyStr v]
                 else []) })) ∧
    (hasSelfIs v i = false →
      getattribute_wrapper w i name s
        = (.ok (.plain v),
           { s with
               guarded := false,
               output := s.output ++ (if s.attribute_access then
                   [s.pfx ++ r ++ "." ++ name ++ " -> " ++ pyStr v]
                 else []) })) := by
  refine ⟨fun h1 h2 => ?_, fun h1 h2 => ?_, fun h1 => ?_⟩
  · by_cases hsma : s.show_method_access = true <;>
      simp [getattribute_wrapper, withGuard, _print, hft, hrepr, hval,
        h1, h2, hsma, String.append_assoc]
  · by_cases hsma : s.show_method_access = true <;>
      simp [getattribute_wrapper, withGuard, _print, hft, hrepr, hval,
        h1, h2, hsma, String.append_assoc]
  · by_cases haa : s.attribute_access = true <;>
      simp [getattribute_wrapper, withGuard, _print, hft, hrepr, hval,
        h1, haa, String.append_assoc]

/-- C9 witness: in the entered baseline session the method get of
instance 0 comes back wrapped with no access line, while the plain
attribute value comes back unwrapped with an access line. -/
theorem only_self_bound_methods_wrapped_witness :
    getattribute_wrapper demoWorld 0 "get" (__enter__ demoSt)
      = (.ok (.wrapped "Test()" (.boundTo (.inst 0) "get")),
         { __enter__ demoSt with
             guarded := false,
             output := (__enter__ demoSt).output
               ++ (if (__enter__ demoSt).show_method_access then
                   [(__enter__ demoSt).pfx ++ "Test()" ++ "." ++ "get"
                     ++ " -> " ++ pyStr (.boundTo (.inst 0) "get")]
                 else []) }) ∧
    getattribute_wrapper demoWorld 0 "value" (__enter__ demoSt)
      = (.ok (.plain (.int 0)),
         { __enter__ demoSt with
             guarded := false,
             output := (__enter__ demoSt).output
               ++ (if (__enter__ demoSt).attribute_access then
                   [(__enter__ demoSt).pfx ++ "Test()" ++ "." ++ "value"
                     ++ " -> " ++ pyStr (.int 0)]
                 else []) }) :=
  ⟨(only_self_bound_methods_wrapped demoWorld 0 "get" "Test()"
      (.boundTo (.inst 0) "get") (__enter__ demoSt) rfl rfl rfl).1 rfl rfl,
   (only_self_bound_methods_wrapped demoWorld 0 "value" "Test()"
      (.int 0) (__enter__ demoSt) rfl rfl rfl).2.2 rfl⟩

/-- The demonstration world with a repr method that raises, so that
description building fails. -/
def brokenReprWorld : World :=
  { demoWorld with reprOf := fun _ => .error (.userError "RuntimeError" "repr broken") }

/-- An entered baseline session whose recursion guard is stuck set. -/
def stuckSt : St := { __enter__ demoSt with guarded := true }

/-- C10: when description building raises (the target's repr fails
during a read, or during signature rendering of a wrapped call), the
recursion-guard flag stays set because the guard's context manager only
clears it on normal completion; from then on every operation on matching
instances fast-tracks past interception and logging.  Reads and
deletions still execute the original behavior on the fast path; an
assignment does not: the fast path calls the saved original setattr
without the value argument, which raises TypeError instead of storing
the value — the point at which the code diverges from the claim. -/
theorem stuck_guard_bypasses_interception (w : World) (irepr : String)
    (i : Nat) (name : String) (val : Value) (e : Exc) (s : St)
    (hft : _fast_track s i = false)
    (hrepr : w.reprOf i = .error e) :
    getattribute_wrapper w i name s = (.error e, { s with guarded := true }) ∧
    (∀ fname : String, s.done = false →
      call_decorator w irepr (.boundTo (.inst i) fname) s
        = (.error e, { s with guarded := true })) ∧
    (∀ s2 : St, s2.guarded = true →
      getattribute_wrapper w i name s2
        = ((original_getattribute_fn w s2.heap i name).map .plain, s2)) ∧
    (∀ (s2 : St) (h2 : Heap), s2.guarded = true →
      original_delattr_fn s2.heap i name = .ok h2 →
      delattr_wrapper w i name s2 = (.ok (), { s2 with heap := h2 })) ∧
    (∀ s2 : St, s2.guarded = true →
      setattr_wrapper w i name val s2 = (.error .typeError, s2)) := by
  refine ⟨?_, fun fname hdone => ?_, fun s2 hg => ?_,
    fun s2 h2 hg hdel => ?_, fun s2 hg => ?_⟩
  · simp [getattribute_wrapper, withGuard, hft, hrepr]
  · simp [call_decorator, withGuard, buildCallDescription, hdone, hrepr]
  · have hft2 : _fast_track s2 i = true := by simp [_fast_track, hg]
    simp [getattribute_wrapper, hft2]
  · have hft2 : _fast_track s2 i = true := by simp [_fast_track, hg]
    simp [delattr_wrapper, hft2, hdel]
  · have hft2 : _fast_track s2 i = true := by simp [_fast_track, hg]
    simp [setattr_wrapper, hft2]

/-- C10 witness: with the broken repr, a read on instance 0 leaves the
guard set; in the stuck state a read fast-tracks to the original value
and an assignment raises TypeError without storing anything. -/
theorem stuck_guard_bypasses_interception_witness :
    getattribute_wrapper brokenReprWorld 0 "value" (__enter__ demoSt)
      = (.error (.userError "RuntimeError" "repr broken"),
         { __enter__ demoSt with guarded := true }) ∧
    getattribute_wrapper brokenReprWorld 0 "value" stuckSt
      = ((original_getattribute_fn brokenReprWorld stuckSt.heap 0 "value").map
           .plain, stuckSt) ∧
    setattr_wrapper brokenReprWorld 0 "value" (.int 5) stuckSt
      = (.error .typeError, stuckSt) :=
  ⟨(stuck_guard_bypasses_interception brokenReprWorld "Test()" 0 "value"
      (.int 5) (.userError "RuntimeError" "repr broken") (__enter__ demoSt)
      rfl rfl).1,
   (stuck_guard_bypasses_interception brokenReprWorld "Test()" 0 "value"
      (.int 5) (.userError "RuntimeError" "repr broken") (__enter__ demoSt)
      rfl rfl).2.2.1 stuckSt rfl,
   (stuck_guard_bypasses_interception brokenReprWorld "Test()" 0 "value"
      (.int 5) (.userError "RuntimeError" "repr broken") (__enter__ demoSt)
      rfl rfl).2.2.2.2 stuckSt rfl⟩

/-! ## Stack preservation for operations that complete -/

/-- A completed intercepted read leaves the pending stack as it found
it: the one description pushed before the lookup is the one popped after
it. -/
theorem getattribute_wrapper_ok_stack (w : World) (i : Nat) (name : String)
    (s : St) (res : GetResult) (s2 : St)
    (h : getattribute_wrapper w i name s = (.ok res, s2)) :
    s2.stack = s.stack := by
  by_cases hft : _fast_track s i = true
  · simp only [getattribute_wrapper, hft, if_true] at h
    obtain ⟨-, h2⟩ := Prod.mk.injEq .. ▸ h
    subst h2
    rfl
  · cases hrepr : w.reprOf i with
    | error e => simp [getattribute_wrapper, withGuard, hft, hrepr] at h
    | ok ir =>
      cases hval : original_getattribute_fn w s.heap i name with
      | error e =>
          simp [getattribute_wrapper, withGuard, hft, hrepr, hval] at h
      | ok v =>
          by_cases h1 : hasSelfIs v i = true <;>
          by_cases h2 : s.show_method_access = true <;>
          by_cases h3 : s.function_calls = true <;>
          by_cases h4 : s.attribute_access = true <;>
          (simp [getattribute_wrapper, withGuard, _print, hft, hrepr, hval,
             h1, h2, h3, h4] at h;
           rcases h with ⟨-, rfl⟩;
           simp)

/-- A completed intercepted write leaves the pending stack unchanged. -/
theorem setattr_wrapper_ok_stack (w : World) (i : Nat) (name : String)
    (v : Value) (s s2 : St)
    (h : setattr_wrapper w i name v s = (.ok (), s2)) :
    s2.stack = s.stack := by
  by_cases hft : _fast_track s i = true
  · simp [setattr_wrapper, hft] at h
  · cases hrepr : w.reprOf i with
    | error e => simp [setattr_wrapper, withGuard, hft, hrepr] at h
    | ok ir =>
      cases hset : original_setattr_fn w s.heap i name v with
      | error e =>
          simp [setattr_wrapper, withGuard, hft, hrepr, hset] at h
      | ok hp =>
          simp [setattr_wrapper, withGuard, _print, hft, hrepr, hset] at h
          subst h
          simp

/-- A completed intercepted delete leaves the pending stack unchanged. -/
theorem delattr_wrapper_ok_stack (w : World) (i : Nat) (name : String)
    (s s2 : St)
    (h : delattr_wrapper w i name s = (.ok (), s2)) :
    s2.stack = s.stack := by
  by_cases hft : _fast_track s i = true
  · cases hdel : original_delattr_fn s.heap i name with
    | error e => simp [delattr_wrapper, hft, hdel] at h
    | ok hp =>
        simp [delattr_wrapper, hft, hdel] at h
        subst h
        rfl
  · cases hrepr : w.reprOf i with
    | error e => simp [delattr_wrapper, withGuard, hft, hrepr] at h
    | ok ir =>
      cases hdel : original_delattr_fn s.heap i name with
      | error e =>
          simp [delattr_wrapper, withGuard, hft, hrepr, hdel] at h
      | ok hp =>
          simp [delattr_wrapper, withGuard, _print, hft, hrepr, hdel] at h
          subst h
          simp

/-- A dispatched read that completes leaves the pending stack unchanged,
whichever slot is installed. -/
theorem readAttr_ok_stack (w : World) (i : Nat) (name : String)
    (s : St) (res : GetResult) (s2 : St)
    (h : readAttr w i name s = (.ok res, s2)) :
    s2.stack = s.stack := by
  cases hcg : s.clsGet with
  | original =>
      simp only [readAttr, hcg] at h
      obtain ⟨-, h2⟩ := Prod.mk.injEq .. ▸ h
      subst h2
      rfl
  | wrapper =>
      simp only [readAttr, hcg] at h
      exact getattribute_wrapper_ok_stack w i name s res s2 h
  | pyNone => simp [readAttr, hcg] at h

/-- A method body that completes leaves the pending stack unchanged. -/
theorem runBody_ok_stack (w : World) (i : Nat) (b : Body) (s : St)
    (v : Value) (s2 : St)
    (h : runBody w i b s = (.ok v, s2)) :
    s2.stack = s.stack := by
  cases b with
  | ret v0 =>
      simp [runBody] at h
      rcases h with ⟨-, rfl⟩
      rfl
  | retSelfAttr nm =>
      rcases hra : readAttr w i nm s with ⟨rr, s1⟩
      cases rr with
      | ok gr =>
          simp [runBody, hra] at h
          rcases h with ⟨-, rfl⟩
          exact readAttr_ok_stack w i nm s gr s1 hra
      | error e => simp [runBody, hra] at h
  | raiseE e => simp [runBody] at h

/-- A call of a value that completes leaves the pending stack unchanged. -/
theorem callValue_ok_stack (w : World) (f : Value) (s : St) (v : Value)
    (s2 : St)
    (h : callValue w f s = (.ok v, s2)) :
    s2.stack = s.stack := by
  cases f with
  | boundTo r fn =>
      cases r with
      | inst j =>
          simp only [callValue] at h
          exact runBody_ok_stack w j (w.bodyOf fn) s v s2 h
      | cls => simp [callValue] at h
  | int n => simp [callValue] at h
  | str t => simp [callValue] at h
  | none => simp [callValue] at h
  | func fn => simp [callValue] at h

/-- A wrapped call that completes leaves the pending stack as it found
it. -/
theorem call_decorator_ok_stack (w : World) (instance_repr : String)
    (f : Value) (s : St) (v : Value) (s2 : St)
    (h : call_decorator w instance_repr f s = (.ok v, s2)) :
    s2.stack = s.stack := by
  by_cases hdone : s.done = true
  · simp only [call_decorator, if_pos hdone] at h
    exact callValue_ok_stack w f s v s2 h
  · cases hbc : buildCallDescription w instance_repr f with
    | error e => simp only [call_decorator, if_neg hdone, withGuard, hbc] at h; simp at h
    | ok d =>
      simp only [call_decorator, if_neg hdone, withGuard, hbc] at h
      rcases hcv : callValue w f
          { s with guarded := false, stack := s.stack ++ [d] } with ⟨cr, s3⟩
      rw [hcv] at h
      cases cr with
      | error e => simp at h
      | ok val =>
          simp [_print] at h
          rcases h with ⟨-, rfl⟩
          have h3 := callValue_ok_stack w f _ val s3 hcv
          simp only [h3]
          simp

/-- C8: every intercepted operation that completes without raising
pushes exactly one description and pops exactly one, leaving the pending
stack in the state it had before the operation (so the stack is empty at
exit when no intercepted operation raised): this holds for the read,
write and delete wrappers and for the call wrapper. -/
theorem successful_interception_preserves_stack :
    (∀ (w : World) (i : Nat) (name : String) (s : St) (res : GetResult)
        (s2 : St), getattribute_wrapper w i name s = (.ok res, s2) →
        s2.stack = s.stack) ∧
    (∀ (w : World) (i : Nat) (name : String) (v : Value) (s s2 : St),
        setattr_wrapper w i name v s = (.ok (), s2) → s2.stack = s.stack) ∧
    (∀ (w : World) (i : Nat) (name : String) (s s2 : St),
        delattr_wrapper w i name s = (.ok (), s2) → s2.stack = s.stack) ∧
    (∀ (w : World) (instance_repr : String) (f : Value) (s : St) (v : Value)
        (s2 : St), call_decorator w instance_repr f s = (.ok v, s2) →
        s2.stack = s.stack) :=
  ⟨getattribute_wrapper_ok_stack, setattr_wrapper_ok_stack,
   delattr_wrapper_ok_stack, call_decorator_ok_stack⟩

/-- C8 witness: in the entered baseline session, a completed read, write,
delete and wrapped call on instance 0 each leave the pending stack (the
empty stack) as it was. -/
theorem successful_interception_preserves_stack_witness :
    ((getattribute_wrapper demoWorld 0 "value" (__enter__ demoSt)).2).stack
      = (__enter__ demoSt).stack ∧
    ((setattr_wrapper demoWorld 0 "value" (.int 5) (__enter__ demoSt)).2).stack
      = (__enter__ demoSt).stack ∧
    ((delattr_wrapper demoWorld 0 "value" (__enter__ demoSt)).2).stack
      = (__enter__ demoSt).stack ∧
    ((call_decorator demoWorld "Test()" (.boundTo (.inst 0) "test")
        (__enter__ demoSt)).2).stack = (__enter__ demoSt).stack :=
  ⟨successful_interception_preserves_stack.1 demoWorld 0 "value"
      (__enter__ demoSt) (.plain (.int 0)) _ rfl,
   successful_interception_preserves_stack.2.1 demoWorld 0 "value" (.int 5)
      (__enter__ demoSt) _ rfl,
   successful_interception_preserves_stack.2.2.1 demoWorld 0 "value"
      (__enter__ demoSt) _ rfl,
   successful_interception_preserves_stack.2.2.2 demoWorld "Test()"
      (.boundTo (.inst 0) "test") (__enter__ demoSt) (.int 1) _ rfl⟩

end Insightful
